import Mathlib

/-!
Shallow embedding of `zotero-cli` (`src/zotero_cli/cli.py`) and of the
sync-engine contract of its backend, with theorems checking the
natural-language specification against the code.

Conventions of the embedding:
* Python strings are `String`; `re.match` (which anchors only at the start
  of the string) is modelled character-by-character on `String.toList`.
* Interactive input (`click.prompt`) is modelled as a list of entries the
  user types, each `Option Int` (`none` = bare return, which makes
  `click.prompt` substitute the default).
* A Python function that can loop forever waiting for input returns
  `Option _`; `none` means the supplied input list was exhausted without
  the function returning.
* `raise`/uncaught exceptions are explicit constructors of result types.
-/

namespace ZoteroCli

/-! ## Character classes and the two regexes

`ID_PAT = re.compile(r'[A-Z0-9]{8}')` and
`PROFILE_PAT = re.compile(r'([a-z0-9]{8})\.(.*)')` (cli.py lines 23-24).
Both are used through `re.match`, which anchors at the start only: a match
succeeds whenever a *prefix* of the string matches the pattern. -/

def isUpperAlnum (c : Char) : Bool :=
  ('A' ≤ c && c ≤ 'Z') || ('0' ≤ c && c ≤ '9')

def isLowerAlnum (c : Char) : Bool :=
  ('a' ≤ c && c ≤ 'z') || ('0' ≤ c && c ≤ '9')

/-- `ID_PAT.match(s)` is truthy: the first 8 characters exist and are
uppercase alphanumeric.  No end anchor: longer strings also match. -/
def idPatMatch (s : String) : Bool :=
  decide (8 ≤ s.toList.length) && (s.toList.take 8).all isUpperAlnum

/-- `PROFILE_PAT.match(s)` is truthy: 8 lowercase alphanumerics, then a
literal dot; `(.*)` always matches (possibly empty, stops at a newline),
and there is no end anchor. -/
def profilePatMatch (s : String) : Bool :=
  decide (9 ≤ s.toList.length) && (s.toList.take 8).all isLowerAlnum
    && (s.toList.get? 8 == some '.')

/-- `PROFILE_PAT.match(s).group(2)`: the characters after the dot, up to
(but excluding) a newline, since `.` does not match `\n`. -/
def profileGroup2 (s : String) : String :=
  String.mk ((s.toList.drop 9).takeWhile (fun c => !(c == '\n')))

/-! ## `get_extension` (cli.py lines 34-45) -/

def EXTENSION_MAP : List (String × String) :=
  [("docbook", "dbk"), ("latex", "tex")]

/-- `pat` is a prefix of `l` (character lists). -/
def leadsWith : List Char → List Char → Bool
  | [], _ => true
  | _ :: _, [] => false
  | a :: as, b :: bs => (a == b) && leadsWith as bs

/-- `pat` occurs as a contiguous substring of `l`: Python's `pat in s`. -/
def occursIn (pat : List Char) : List Char → Bool
  | [] => leadsWith pat []
  | c :: rest => leadsWith pat (c :: rest) || occursIn pat rest

/-- Python `sub in s` on strings. -/
def strContains (s sub : String) : Bool :=
  occursIn sub.toList s.toList

/-- `get_extension(pandoc_fmt)`: `.md` when the format name contains
`'mark'`, else the `EXTENSION_MAP` entry, else `'.' + pandoc_fmt`. -/
def get_extension (pandoc_fmt : String) : String :=
  if strContains pandoc_fmt "mark" then ".md"
  else
    match EXTENSION_MAP.lookup pandoc_fmt with
    | some ext => ext
    | none => "." ++ pandoc_fmt

/-! ## `select` (cli.py lines 283-313)

The displayed labels do not influence the returned value; the loop body is
modelled over the list of integers the user enters.  `click.prompt(...,
default=default, type=int)` yields `default` on a bare return, that is on
input entry `none`. -/

/-- `cutoff = -1 if not required else 0`. -/
def selectCutoff (required : Bool) : Int :=
  match required with
  | true => 0
  | false => -1

/-- One run of `select(choices, prompt, default, required)` fed with the
entries of `inputs`.  Returns `none` when `inputs` is exhausted while the
Python loop would still be prompting; `some r` when the function returns
`r` (`r = none` is Python returning `None`). -/
def selectRun {α : Type} (choices : List (α × String)) (dflt : Int)
    (required : Bool) : List (Option Int) → Option (Option α)
  | [] => none
  | inp :: rest =>
    let choice_idx : Int := inp.getD dflt
    if choice_idx < selectCutoff required ∨
        (choices.length : Int) ≤ choice_idx then
      selectRun choices dflt required rest
    else if choice_idx = -1 then
      some none
    else
      match choices.get? choice_idx.toNat with
      | some c => some (some c.1)
      | none => none

/-! ## Items and `pick_item` (cli.py lines 263-280) -/

/-- The fields of a backend search result that `cli.py` reads
(`it.key`, `it.title`, `it.creator`, `it.date`); `creator` and `date`
are optional (truthiness-tested in the source). -/
structure Item where
  key : String
  title : String
  creator : Option String
  date : Option String
deriving DecidableEq, Repr

/-- The description built for one item in the ambiguous branch of
`pick_item` (styling escape codes omitted: they never affect which object
is returned). -/
def describeItem (it : Item) : String :=
  let desc := it.title
  let desc := match it.creator with
    | some c => c ++ ": " ++ desc
    | none => desc
  match it.date with
  | some d => desc ++ " (" ++ d ++ ")"
  | none => desc

/-- What a `pick_item` call does once the Python function returns or
raises. -/
inductive PickResult where
  /-- `ID_PAT.match(item_id)` was truthy, the `if` body is skipped, and
  the function falls off its end: Python returns `None`. -/
  | pyNone : PickResult
  /-- The function returns this string as the resolved key. -/
  | key (k : String) : PickResult
  /-- `raise ValueError(msg)`. -/
  | valueError (msg : String) : PickResult
  /-- `select(...)` returned `None` and `.key` raised `AttributeError`
  (unreachable: `select` is called with `required=True`). -/
  | attrError : PickResult
deriving DecidableEq, Repr

/-- `pick_item(zot, item_id)`.  `search` stands for `zot.search`;
`inputs` feeds the `select` prompt of the ambiguous branch. -/
def pick_item (search : String → List Item) (inputs : List (Option Int))
    (item_id : String) : Option PickResult :=
  if idPatMatch item_id then
    -- the `if not ID_PAT.match(item_id)` body is skipped; implicit `return None`
    some .pyNone
  else
    let items := search item_id
    if 1 < items.length then
      match selectRun (items.zip (items.map describeItem)) 0 true inputs with
      | none => none
      | some none => some .attrError
      | some (some it) => some (.key it.key)
    else
      match items with
      | [] => some (.valueError "Could not find any items for the query.")
      | it :: _ => some (.key it.key)

/-- The `(object, label)` choices `pick_item` hands to `select` in its
ambiguous branch: `zip(items, item_descriptions)`. -/
def pickItemChoices (items : List Item) : List (Item × String) :=
  items.zip (items.map describeItem)

/-! ## `find_storage_directories` (cli.py lines 48-62) -/

/-- One child of `~/.mozilla/firefox` or `~/.zotero`, abstracting the
filesystem: its `name`, whether it `is_dir()`, and the relative paths
that `exists()` under it. -/
structure FSEntry where
  name : String
  isDir : Bool
  existing : List (List String)
deriving DecidableEq, Repr

/-- `find_storage_directories()` over the children of the two scanned
directories (`itertools.chain`), yielding `(match.group(2),
fpath/"zotero"/"storage")` pairs.  The yielded path is rendered
relative to the scanned directory. -/
def find_storage_directories (firefoxEntries zoteroEntries : List FSEntry) :
    List (String × String) :=
  (firefoxEntries ++ zoteroEntries).filterMap fun e =>
    if e.isDir && profilePatMatch e.name
        && e.existing.contains ["zotero", "storage"] then
      some (profileGroup2 e.name, e.name ++ "/zotero/storage")
    else none

/-! ## Note selection in `edit_note` (cli.py lines 243-255) -/

/-- The fields of a note record that the selection logic reads:
`n['data']['note']['text']`. -/
structure Note where
  text : String
deriving DecidableEq, Repr

/-- Python `\w` on ASCII (the label rewrite `re.sub("[^\w]", " ", ...)`). -/
def isWordChar (c : Char) : Bool :=
  ('a' ≤ c && c ≤ 'z') || ('A' ≤ c && c ≤ 'Z') || ('0' ≤ c && c ≤ '9')
    || c == '_'

/-- Label shown for a note in `edit_note`'s `select` call: first line of
the text with non-word characters replaced by spaces. -/
def noteLabel (n : Note) : String :=
  String.mk (((n.text.toList.takeWhile (fun c => !(c == '\n'))).map
    (fun c => if isWordChar c then c else ' ')))

/-- Python sequence indexing `notes[i]` on a tuple: negative indices count
from the end; `none` is an uncaught `IndexError`. -/
def pyIndex {α : Type} (l : List α) (i : Int) : Option α :=
  if 0 ≤ i then l.get? i.toNat
  else if 0 ≤ (l.length : Int) + i then l.get? ((l.length : Int) + i).toNat
  else none

/-- How `edit_note` leaves its note-picking phase. -/
inductive EditNoteResult where
  /-- `ctx.fail(msg)`: a handled failure. -/
  | fail (msg : String) : EditNoteResult
  /-- `notes[note_num]` raised an uncaught `IndexError`. -/
  | indexError : EditNoteResult
  /-- This note goes on to `click.edit`. -/
  | note (n : Note) : EditNoteResult
deriving DecidableEq, Repr

/-- The note-picking phase of `edit_note(ctx, item_id, note_num)`, after
`pick_item` succeeded: `notes` is `tuple(ctx.obj.notes(item_id))`,
`note_num` the optional second CLI argument, `inputs` feeds `select`.
`none` means the `select` prompt was still looping when `inputs` ran
out. -/
def editNotePick (notes : List Note) (note_num : Option Int)
    (inputs : List (Option Int)) : Option EditNoteResult :=
  if notes.isEmpty then some (.fail "The item does not have any notes.")
  else
    match note_num with
    | none =>
      if 1 < notes.length then
        match selectRun (notes.zip (notes.map noteLabel)) 0 true inputs with
        | none => none
        | some none => none  -- unreachable: `select` here has `required=True`
        | some (some n) => some (.note n)
      else
        match notes with
        | [] => none  -- unreachable: `notes` is nonempty here
        | n :: _ => some (.note n)
    | some i =>
      match pyIndex notes i with
      | some n => some (.note n)
      | none => some .indexError

/-! ## Sync engine

`ZoteroBackend.synchronize` lives in `zotero_cli/backend.py`, which is not
among the sources (only its caller `cli.py` is); the definitions below are
modelled from the spec, §4.1. -/

/-- Modelled from the spec: one record pulled from the remote
(`key`, `version`; §3 Item/Note/Attachment all carry these). -/
structure SyncRecord where
  key : String
  version : Nat
deriving DecidableEq, Repr

/-- Modelled from the spec: one page of the incremental pull, carrying
upserts and tombstone deletions; `ok = false` means fetching or applying
this page fails (RemoteUnavailable / StoreWriteError). -/
structure SyncPage where
  ok : Bool
  records : List SyncRecord
  deletions : List String
deriving DecidableEq, Repr

/-- Modelled from the spec: the Local Store, keyed by `key` (§4.2). -/
structure LocalStore where
  records : List SyncRecord
deriving DecidableEq, Repr

/-- Modelled from the spec: `SyncState` with its version cursor (§3). -/
structure SyncState where
  last_synced_version : Nat
deriving DecidableEq, Repr

/-- Modelled from the spec: Local Store plus SyncState — everything
`synchronize()` may change. -/
structure BackendState where
  store : LocalStore
  syncState : SyncState
deriving DecidableEq, Repr

/-- Modelled from the spec: upsert one record into the Local Store
(replace by `key`, else insert). -/
def upsert (st : LocalStore) (r : SyncRecord) : LocalStore :=
  if st.records.any (fun q => q.key == r.key) then
    ⟨st.records.map (fun q => if q.key == r.key then r else q)⟩
  else
    ⟨st.records ++ [r]⟩

/-- Modelled from the spec: delete-by-key tombstone application. -/
def deleteKeys (st : LocalStore) (ks : List String) : LocalStore :=
  ⟨st.records.filter (fun q => !(ks.contains q.key))⟩

/-- Modelled from the spec: apply the pages of one pull in order to a
staged store, accumulating the maximum version observed and the count of
changed records; `none` as soon as a page fails, discarding the staged
work. -/
def applyPages (store : LocalStore) (maxV cnt : Nat) :
    List SyncPage → Option (LocalStore × Nat × Nat)
  | [] => some (store, maxV, cnt)
  | p :: rest =>
    if p.ok then
      let store := deleteKeys (p.records.foldl upsert store) p.deletions
      let maxV := p.records.foldl (fun m r => max m r.version) maxV
      applyPages store maxV (cnt + p.records.length + p.deletions.length) rest
    else none

/-- Modelled from the spec: `synchronize()` (§4.1).  `pull cursor` is the
paginated response of the Remote Client for changes with version greater
than `cursor`.  Returns the post-call state and `some count` on success;
on any page failure the call aborts: the state component is the original
state and the count is `none`. -/
def synchronize (s : BackendState) (pull : Nat → List SyncPage) :
    BackendState × Option Nat :=
  match applyPages s.store s.syncState.last_synced_version 0
      (pull s.syncState.last_synced_version) with
  | some (store, maxV, cnt) => (⟨store, ⟨maxV⟩⟩, some cnt)
  | none => (s, none)

/-! ## Concrete data for evaluating the definitions -/

/-- Two distinct items sharing the title "Neural Networks". -/
def itemA : Item := ⟨"AAAAAAA1", "Neural Networks", none, none⟩

def itemB : Item := ⟨"BBBBBBB2", "Neural Networks", some "Smith", some "2001"⟩

/-- A backend whose search always finds the two like-titled items. -/
def twoMatches : String → List Item := fun _ => [itemA, itemB]

/-- A backend whose search always finds exactly one item. -/
def oneMatch : String → List Item := fun _ => [itemA]

/-- A backend whose search never finds anything. -/
def noMatches : String → List Item := fun _ => []

/-- A pull whose only page fails. -/
def badPull : Nat → List SyncPage := fun _ => [⟨false, [⟨"AAAAAAA1", 7⟩], []⟩]

/-- An empty local mirror at cursor 0. -/
def initialBackend : BackendState := ⟨⟨[]⟩, ⟨0⟩⟩

/-! ## Theorems -/

/-- Any object `select` hands back came from the choices list. -/
theorem selectRun_some_mem {α : Type} (choices : List (α × String)) (dflt : Int)
    (required : Bool) (inputs : List (Option Int)) (x : α)
    (h : selectRun choices dflt required inputs = some (some x)) :
    ∃ c ∈ choices, c.1 = x := by
  induction inputs with
  | nil => simp [selectRun] at h
  | cons inp rest ih =>
    rw [selectRun] at h
    by_cases hout : inp.getD dflt < selectCutoff required ∨
        (choices.length : Int) ≤ inp.getD dflt
    · rw [if_pos hout] at h
      exact ih h
    · rw [if_neg hout] at h
      by_cases hm1 : inp.getD dflt = -1
      · rw [if_pos hm1] at h
        simp at h
      · rw [if_neg hm1] at h
        rcases hg : choices.get? (inp.getD dflt).toNat with _ | c
        · rw [hg] at h
          simp at h
        · rw [hg] at h
          refine ⟨c, List.get?_mem hg, ?_⟩
          simpa using h

/-- `select` returns `None` only when `required` is `False` and some
entered index evaluates to `-1`. -/
theorem selectRun_some_none {α : Type} (choices : List (α × String)) (dflt : Int)
    (required : Bool) (inputs : List (Option Int))
    (h : selectRun choices dflt required inputs = some none) :
    required = false ∧ ∃ inp ∈ inputs, inp.getD dflt = -1 := by
  induction inputs with
  | nil => simp [selectRun] at h
  | cons inp rest ih =>
    rw [selectRun] at h
    by_cases hout : inp.getD dflt < selectCutoff required ∨
        (choices.length : Int) ≤ inp.getD dflt
    · rw [if_pos hout] at h
      obtain ⟨hr, i, hi, hv⟩ := ih h
      exact ⟨hr, i, List.mem_cons_of_mem _ hi, hv⟩
    · rw [if_neg hout] at h
      by_cases hm1 : inp.getD dflt = -1
      · cases required with
        | false => exact ⟨rfl, inp, List.mem_cons_self _ _, hm1⟩
        | true =>
          exfalso
          apply hout
          left
          rw [hm1]
          decide
      · rw [if_neg hm1] at h
        rcases hg : choices.get? (inp.getD dflt).toNat with _ | c <;>
          rw [hg] at h <;> simp at h

/-- An entered index outside the accepted range makes one loop iteration
re-prompt without returning. -/
theorem selectRun_skip {α : Type} (choices : List (α × String)) (dflt : Int)
    (required : Bool) (inp : Option Int) (rest : List (Option Int))
    (hout : inp.getD dflt < selectCutoff required
      ∨ (choices.length : Int) ≤ inp.getD dflt) :
    selectRun choices dflt required (inp :: rest)
      = selectRun choices dflt required rest := by
  rw [selectRun, if_pos hout]

/-- C9: whenever `select` returns, its result is the object component of
one of the given choices or `None`; `None` is returned only when
`required` is `False` and an entered index evaluates to `-1`; and an
entered index outside the accepted range `[cutoff, len(choices)-1]` makes
the loop re-prompt on the remaining input, never returning that index. -/
theorem c9_select_invariant {α : Type} (choices : List (α × String))
    (dflt : Int) (required : Bool) (inputs : List (Option Int))
    (r : Option α) (h : selectRun choices dflt required inputs = some r) :
    (∀ x, r = some x → ∃ c ∈ choices, c.1 = x)
    ∧ (r = none → required = false ∧ ∃ inp ∈ inputs, inp.getD dflt = -1)
    ∧ (∀ inp rest, (inp.getD dflt < selectCutoff required
        ∨ (choices.length : Int) ≤ inp.getD dflt) →
        selectRun choices dflt required (inp :: rest)
          = selectRun choices dflt required rest) := by
  refine ⟨?_, ?_, ?_⟩
  · rintro x rfl
    exact selectRun_some_mem choices dflt required inputs x h
  · rintro rfl
    exact selectRun_some_none choices dflt required inputs h
  · intro inp rest hout
    exact selectRun_skip choices dflt required inp rest hout

/-- Witness for C9: one concrete terminating run of `select`. -/
theorem c9_select_invariant_witness :
    (∀ x, (some 5 : Option Nat) = some x → ∃ c ∈ [((5 : Nat), "a")], c.1 = x)
    ∧ ((some 5 : Option Nat) = none → true = false
        ∧ ∃ inp ∈ [some (0 : Int)], inp.getD 0 = -1)
    ∧ (∀ inp rest, (inp.getD 0 < selectCutoff true
        ∨ (([((5 : Nat), "a")].length : Int)) ≤ inp.getD 0) →
        selectRun [((5 : Nat), "a")] 0 true (inp :: rest)
          = selectRun [((5 : Nat), "a")] 0 true rest) :=
  c9_select_invariant [((5 : Nat), "a")] 0 true [some 0] (some 5) (by decide)

/-- C1: on an identifier matching the 8-character key pattern, the body of
`pick_item`'s `if` is skipped and the function falls off its end, so
Python returns `None` — not the identifier itself as the spec requires
(the code issues no search, but the resolved key is lost). -/
theorem c1_pick_item_key_returns_none :
    idPatMatch "ABCD1234" = true
    ∧ pick_item oneMatch [] "ABCD1234" = some PickResult.pyNone
    ∧ pick_item oneMatch [] "ABCD1234" ≠ some (PickResult.key "ABCD1234") :=
  ⟨by decide, by decide, by decide⟩

/-- C4: a non-key identifier whose search yields nothing makes `pick_item`
raise `ValueError` rather than return a key. -/
theorem c4_pick_item_empty (search : String → List Item)
    (inputs : List (Option Int)) (item_id : String)
    (hpat : idPatMatch item_id = false) (hz : search item_id = []) :
    pick_item search inputs item_id
      = some (PickResult.valueError
          "Could not find any items for the query.") := by
  simp [pick_item, hpat, hz]

/-- Witness for C4 at a concrete query. -/
theorem c4_pick_item_empty_witness :
    pick_item noMatches [] "neural networks"
      = some (PickResult.valueError
          "Could not find any items for the query.") :=
  c4_pick_item_empty noMatches [] "neural networks" (by decide) rfl

/-- C5: a non-key identifier whose search yields exactly one item makes
`pick_item` return that item's key. -/
theorem c5_pick_item_single (search : String → List Item)
    (inputs : List (Option Int)) (item_id : String) (it : Item)
    (hpat : idPatMatch item_id = false) (h1 : search item_id = [it]) :
    pick_item search inputs item_id = some (PickResult.key it.key) := by
  simp [pick_item, hpat, h1]

/-- Witness for C5 at a concrete query. -/
theorem c5_pick_item_single_witness :
    pick_item oneMatch [] "smith" = some (PickResult.key "AAAAAAA1") :=
  c5_pick_item_single oneMatch [] "smith" itemA (by decide) rfl

/-- C3: with an ambiguous query (more than one match), the choices handed
to `select` are exactly the matching items in order, `pick_item` cannot
resolve without user input, and a returned key is always the key of one
of the matches the user picked. -/
theorem c3_pick_item_ambiguous (search : String → List Item)
    (inputs : List (Option Int)) (item_id : String) (k : String)
    (hpat : idPatMatch item_id = false)
    (hlen : 1 < (search item_id).length) :
    (pickItemChoices (search item_id)).map Prod.fst = search item_id
    ∧ pick_item search [] item_id = none
    ∧ (pick_item search inputs item_id = some (PickResult.key k) →
        ∃ it ∈ search item_id, it.key = k) := by
  have hchoices : (pickItemChoices (search item_id)).map Prod.fst
      = search item_id := by
    apply List.map_fst_zip
    simp
  refine ⟨hchoices, ?_, ?_⟩
  · simp [pick_item, hpat, hlen, selectRun]
  · intro hk
    rw [pick_item, if_neg (by simp [hpat]), if_pos hlen] at hk
    rcases hs : selectRun (pickItemChoices (search item_id)) 0 true inputs
        with _ | r
    · rw [show (search item_id).zip ((search item_id).map describeItem)
          = pickItemChoices (search item_id) from rfl, hs] at hk
      simp at hk
    · rw [show (search item_id).zip ((search item_id).map describeItem)
          = pickItemChoices (search item_id) from rfl, hs] at hk
      rcases r with _ | it
      · simp at hk
      · have hkey : it.key = k := by simpa using hk
        obtain ⟨c, hc, hc1⟩ :=
          selectRun_some_mem (pickItemChoices (search item_id)) 0 true
            inputs it hs
        refine ⟨it, ?_, hkey⟩
        rw [← hchoices]
        rw [← hc1]
        exact List.mem_map_of_mem Prod.fst hc

/-- Witness for C3 at a concrete ambiguous query. -/
theorem c3_pick_item_ambiguous_witness :
    (pickItemChoices (twoMatches "Neural Networks")).map Prod.fst
        = twoMatches "Neural Networks"
    ∧ pick_item twoMatches [] "Neural Networks" = none
    ∧ (pick_item twoMatches [some 1] "Neural Networks"
          = some (PickResult.key "BBBBBBB2") →
        ∃ it ∈ twoMatches "Neural Networks", it.key = "BBBBBBB2") :=
  c3_pick_item_ambiguous twoMatches [some 1] "Neural Networks" "BBBBBBB2"
    (by decide) (by decide)

/-- C7 counterexample: `"ABCD1234X"` is longer than 8 characters, merely
beginning with 8 uppercase alphanumerics, yet `ID_PAT.match` (unanchored
at the end) accepts it, so `pick_item` takes the no-query path instead of
searching — even a search that would find exactly one item is never
consulted. -/
theorem c7_counterexample :
    idPatMatch "ABCD1234X" = true
    ∧ pick_item oneMatch [] "ABCD1234X" = some PickResult.pyNone
    ∧ pick_item oneMatch [] "ABCD1234X" ≠ some (PickResult.key "AAAAAAA1") :=
  ⟨by decide, by decide, by decide⟩

/-- C7 (amended): a string is treated directly by the key pattern (the
behaviour of `pick_item` ignores the search backend and falls through)
exactly when its first 8 characters exist and are uppercase
alphanumerics — `re.match` anchors only at the start, so longer strings
with such a prefix also take the no-query path. -/
theorem c7_pick_item_pattern_scope (item_id : String) :
    (∀ search inputs, pick_item search inputs item_id
        = some PickResult.pyNone)
      ↔ (8 ≤ item_id.toList.length
          ∧ (item_id.toList.take 8).all isUpperAlnum = true) := by
  constructor
  · intro hall
    have h := hall noMatches []
    by_cases hp : idPatMatch item_id = true
    · simpa [idPatMatch] using hp
    · rw [Bool.not_eq_true] at hp
      simp [pick_item, hp, noMatches] at h
  · intro hcond search inputs
    have hp : idPatMatch item_id = true := by
      unfold idPatMatch
      rw [Bool.and_eq_true]
      exact ⟨decide_eq_true hcond.1, hcond.2⟩
    simp [pick_item, hp]

/-- C6 counterexample: a directory whose name matches the profile pattern
and which contains a direct `storage` subdirectory is *not* yielded — the
code requires the nested path `zotero/storage`, not `storage`. -/
theorem c6_counterexample :
    profilePatMatch "abcd1234.default" = true
    ∧ (FSEntry.mk "abcd1234.default" true [["storage"]]).isDir = true
    ∧ ["storage"] ∈ (FSEntry.mk "abcd1234.default" true [["storage"]]).existing
    ∧ find_storage_directories
        [FSEntry.mk "abcd1234.default" true [["storage"]]] [] = [] :=
  ⟨by decide, rfl, by decide, by decide⟩

/-- C6 (amended): a scanned directory is yielded as a candidate iff it is
a directory, its name matches (as a prefix) 8 lowercase alphanumerics
followed by a dot and a suffix, and it contains a `zotero/storage`
subdirectory path; the yielded pair is the suffix together with that
path. -/
theorem c6_find_storage_iff (firefoxEntries zoteroEntries : List FSEntry)
    (p : String × String) :
    p ∈ find_storage_directories firefoxEntries zoteroEntries ↔
      ∃ e ∈ firefoxEntries ++ zoteroEntries, e.isDir = true
        ∧ profilePatMatch e.name = true
        ∧ ["zotero", "storage"] ∈ e.existing
        ∧ p = (profileGroup2 e.name, e.name ++ "/zotero/storage") := by
  rw [find_storage_directories, List.mem_filterMap]
  constructor
  · rintro ⟨e, he, hfe⟩
    by_cases hc : (e.isDir && profilePatMatch e.name
        && e.existing.contains ["zotero", "storage"]) = true
    · rw [if_pos hc] at hfe
      have hc' := hc
      simp only [Bool.and_eq_true] at hc'
      refine ⟨e, he, hc'.1.1, hc'.1.2, ?_, (Option.some.inj hfe).symm⟩
      have := hc'.2
      simpa using this
    · rw [if_neg hc] at hfe
      cases hfe
  · rintro ⟨e, he, h1, h2, h3, rfl⟩
    refine ⟨e, he, ?_⟩
    rw [if_pos]
    simp only [Bool.and_eq_true]
    exact ⟨⟨h1, h2⟩, by simpa using h3⟩

/-- A pull with a failing page makes `applyPages` discard all staged
work. -/
theorem applyPages_fail (pages : List SyncPage) :
    ∀ (store : LocalStore) (maxV cnt : Nat),
      (∃ p ∈ pages, p.ok = false) →
        applyPages store maxV cnt pages = none := by
  induction pages with
  | nil =>
    intro store maxV cnt h
    simp at h
  | cons p rest ih =>
    intro store maxV cnt h
    rcases h with ⟨q, hq, hok⟩
    rcases List.mem_cons.1 hq with rfl | hq'
    · simp [applyPages, hok]
    · cases hp : p.ok with
      | false => simp [applyPages, hp]
      | true =>
        rw [applyPages, if_pos hp]
        exact ih _ _ _ ⟨q, hq', hok⟩

/-- C2: when some page of the pull fails, `synchronize` aborts with the
whole backend state (Local Store and version cursor) unchanged, and an
immediate retry from the resulting state is exactly the original
attempt. -/
theorem c2_sync_abort_idempotent (s : BackendState)
    (pull : Nat → List SyncPage)
    (h : ∃ p ∈ pull s.syncState.last_synced_version, p.ok = false) :
    synchronize s pull = (s, none)
    ∧ synchronize ((synchronize s pull).1) pull = synchronize s pull := by
  have habort : synchronize s pull = (s, none) := by
    unfold synchronize
    rw [applyPages_fail _ _ _ _ h]
  refine ⟨habort, ?_⟩
  rw [habort]
  exact habort

/-- Witness for C2: a concrete failing pull leaves the empty mirror
untouched. -/
theorem c2_sync_abort_idempotent_witness :
    synchronize initialBackend badPull = (initialBackend, none)
    ∧ synchronize ((synchronize initialBackend badPull).1) badPull
        = synchronize initialBackend badPull :=
  c2_sync_abort_idempotent initialBackend badPull
    ⟨⟨false, [⟨"AAAAAAA1", 7⟩], []⟩, by decide, rfl⟩

/-- C8: `get_extension` returns `.md` for every format containing
`'mark'`; the two mapped formats get their mapped extension with no
leading dot; every other format gets `'.'` plus its own name; and the
result fails to begin with a dot exactly for the two mapped formats. -/
theorem c8_get_extension_spec (fmt : String) :
    (strContains fmt "mark" = true → get_extension fmt = ".md")
    ∧ get_extension "docbook" = "dbk"
    ∧ get_extension "latex" = "tex"
    ∧ (strContains fmt "mark" = false → fmt ≠ "docbook" → fmt ≠ "latex" →
        get_extension fmt = "." ++ fmt)
    ∧ (¬ (get_extension fmt).toList.head? = some '.'
        ↔ (fmt = "docbook" ∨ fmt = "latex")) := by
  have hdot : ∀ t : String, ("." ++ t).toList.head? = some '.' := fun t => rfl
  have hother : ∀ t : String, strContains t "mark" = false →
      t ≠ "docbook" → t ≠ "latex" → get_extension t = "." ++ t := by
    intro t hm h1 h2
    rw [get_extension, if_neg (by simp [hm])]
    have e1 : (t == "docbook") = false := beq_eq_false_iff_ne.mpr h1
    have e2 : (t == "latex") = false := beq_eq_false_iff_ne.mpr h2
    have : EXTENSION_MAP.lookup t = none := by
      simp [EXTENSION_MAP, List.lookup, e1, e2]
    rw [this]
  refine ⟨?_, by decide, by decide, hother fmt, ?_⟩
  · intro hm
    simp [get_extension, hm]
  · by_cases h1 : fmt = "docbook"
    · subst h1
      constructor
      · intro _
        exact Or.inl rfl
      · intro _
        decide
    · by_cases h2 : fmt = "latex"
      · subst h2
        constructor
        · intro _
          exact Or.inr rfl
        · intro _
          decide
      · constructor
        · intro hne
          exfalso
          apply hne
          by_cases hm : strContains fmt "mark"
          · simp [get_extension, hm]
          · rw [hother fmt (by simpa using hm) h1 h2]
            exact hdot fmt
        · rintro (rfl | rfl)
          · exact absurd rfl h1
          · exact absurd rfl h2

/-- C10: an explicit note number is used to index the notes tuple with no
bounds check: whenever the item has notes but the number is at least the
note count or more negative than its length, `edit_note` hits an uncaught
`IndexError`. -/
theorem c10_edit_note_oob (notes : List Note) (i : Int)
    (inputs : List (Option Int)) (hne : notes ≠ [])
    (hoob : (notes.length : Int) ≤ i ∨ i < -(notes.length : Int)) :
    editNotePick notes (some i) inputs = some EditNoteResult.indexError := by
  have hidx : pyIndex notes i = none := by
    unfold pyIndex
    by_cases h0 : (0 : Int) ≤ i
    · rw [if_pos h0]
      have hle : (notes.length : Int) ≤ i := by
        rcases hoob with h | h
        · exact h
        · exfalso
          omega
      rw [List.get?_eq_none]
      omega
    · rw [if_neg h0]
      have hneg : ¬ (0 : Int) ≤ (notes.length : Int) + i := by
        rcases hoob with h | h
        · exfalso
          omega
        · omega
      rw [if_neg hneg]
  rw [editNotePick, if_neg (by simp [hne] : ¬ notes.isEmpty = true)]
  rw [hidx]

/-- Witness for C10: one note, note number 1. -/
theorem c10_edit_note_oob_witness :
    editNotePick [Note.mk "hello"] (some 1) []
      = some EditNoteResult.indexError :=
  c10_edit_note_oob [Note.mk "hello"] 1 [] (by decide) (Or.inl (by decide))

end ZoteroCli
